import Mathlib

/-!
Verification development for the Be-Saavy notification timing engine:
a shallow embedding of `NotificationService` (NotificationService.ts) and
`SmartNotificationTiming` (recommendationService.ts) together with theorems
about the behaviour of the embedded operations.

Modelling conventions:
* Absolute times (JS `Date` values) are natural numbers counting minutes
  since the epoch; the epoch day is a Thursday, matching the JS epoch, so
  `getDay()` is `(t / 1440 + 4) % 7`.  All time arithmetic in the source is
  in whole-minute multiples, so the ms resolution of `Date` is not needed.
* JS numbers that can be `NaN` are modelled as `Option ℚ` with `none` for
  `NaN`; the comparison helpers below return `false` whenever an operand is
  `none`, exactly as every JS comparison against `NaN` is false.
* `Number(s)` is modelled for strings of decimal digits (the shape time
  strings have): all-digit strings evaluate to their value, the empty
  string to `0`, and anything else to `NaN` (`none`).
* Where a function reads the current clock more than once in the source,
  the embedding passes a single `now` parameter.
-/

namespace BeSaavy

/-- Hour-of-day of an absolute time in minutes (models `Date.getHours`). -/
def hourOfTime (t : ℕ) : ℕ := t / 60 % 24

/-- Minute-of-hour of an absolute time (models `Date.getMinutes`). -/
def minuteOfTime (t : ℕ) : ℕ := t % 60

/-- Minutes elapsed since local midnight. -/
def minutesOfDay (t : ℕ) : ℕ := t % 1440

/-- Day of week, Sunday = 0 (models `Date.getDay`; the epoch is a Thursday). -/
def dayOfWeekOf (t : ℕ) : ℕ := (t / 1440 + 4) % 7

/-- Value of a decimal digit character, `none` for non-digits. -/
def digitVal (c : Char) : Option ℕ := if c.isDigit then some (c.toNat - 48) else none

/-- Models JS `Number(s)` for a string given as its character list, restricted
to decimal-digit strings: an all-digit string evaluates to its value, the
empty string to `0` (as in JS), and any other string to `NaN` (`none`). -/
def jsNumberL (cs : List Char) : Option ℕ :=
  cs.foldl
    (fun acc c =>
      match acc, digitVal c with
      | some n, some d => some (10 * n + d)
      | _, _ => none)
    (some 0)

/-- Models `String.prototype.split(':')` on the character list of a string. -/
def splitCols : List Char → List (List Char)
  | [] => [[]]
  | c :: cs =>
    if c = ':' then [] :: splitCols cs
    else
      match splitCols cs with
      | [] => [[c]]
      | g :: gs => (c :: g) :: gs

/-- `SmartNotificationTiming.parseTime` (recommendationService.ts:891):
`const [hours, minutes] = timeStr.split(':').map(Number); return hours + minutes / 60;`
The result is fractional HOURS; `none` models a `NaN` result. -/
def smartParseTime (s : String) : Option ℚ :=
  let parts := (splitCols s.data).map jsNumberL
  match parts.get? 0, parts.get? 1 with
  | some (some h), some (some m) => some ((h : ℚ) + (m : ℚ) / 60)
  | _, _ => none

/-- `NotificationService.parseTime` (NotificationService.ts:178):
`const [hours, minutes] = timeStr.split(':').map(Number); return hours * 60 + minutes;`
The result is minutes since midnight; `none` models a `NaN` result. -/
def nsParseTime (s : String) : Option ℚ :=
  let parts := (splitCols s.data).map jsNumberL
  match parts.get? 0, parts.get? 1 with
  | some (some h), some (some m) => some ((h : ℚ) * 60 + (m : ℚ))
  | _, _ => none

/-- JS `a <= b` on possibly-NaN numbers (false when either side is NaN). -/
def jsLe : Option ℚ → Option ℚ → Bool
  | some a, some b => decide (a ≤ b)
  | _, _ => false

/-- JS `a >= b` on possibly-NaN numbers (false when either side is NaN). -/
def jsGe : Option ℚ → Option ℚ → Bool
  | some a, some b => decide (b ≤ a)
  | _, _ => false

/-- JS `a > b` on possibly-NaN numbers (false when either side is NaN). -/
def jsGt : Option ℚ → Option ℚ → Bool
  | some a, some b => decide (b < a)
  | _, _ => false

/-- `SmartNotificationTiming.isHourInRange` (recommendationService.ts:896).
The source's `end` parameter is named `stop` here (`end` is a Lean keyword). -/
def isHourInRange (hour start stop : Option ℚ) : Bool :=
  if jsLe start stop then jsGe hour start && jsLe hour stop
  else jsGe hour start || jsLe hour stop

/-- A quiet period `{ start, end }` as stored in the behaviour pattern; the
source's `end` field is named `stop` here. -/
structure QuietPeriodW where
  start : String
  stop : String
deriving DecidableEq

/-- `SmartNotificationTiming.isTimeInQuietPeriod` (recommendationService.ts:903). -/
def isTimeInQuietPeriod (t : ℕ) (q : QuietPeriodW) : Bool :=
  let timeHour : ℚ := (hourOfTime t : ℚ) + (minuteOfTime t : ℚ) / 60
  isHourInRange (some timeHour) (smartParseTime q.start) (smartParseTime q.stop)

/-- A nap window with a reliability score (`end` field renamed `stop`). -/
structure NapTime where
  start : String
  stop : String
  reliability : ℚ
deriving DecidableEq

/-- A fussy period with an intensity score (`end` field renamed `stop`). -/
structure FussyPeriod where
  start : String
  stop : String
  intensity : ℚ
deriving DecidableEq

/-- A wall-clock time with a consistency score (bedtime / wakeup time). -/
structure TimeConsistency where
  time : String
  consistency : ℚ
deriving DecidableEq

/-- `BabyScheduleData` (recommendationService.ts). -/
structure BabyScheduleData where
  napTimes : List NapTime
  bedtime : TimeConsistency
  wakeupTime : TimeConsistency
  feedingTimes : List ℕ
  fussyPeriods : List FussyPeriod
deriving DecidableEq

/-- `UserBehaviorPattern` (recommendationService.ts).  `responseRates` and
`averageResponseTime` are JS objects keyed by the decimal string of the hour;
they are modelled as association lists keyed by the hour itself, and
`weeklyPattern` by the day name. -/
structure UserBehaviorPattern where
  appUsageHours : List ℕ
  responseRates : List (ℕ × ℚ)
  averageResponseTime : List (ℕ × ℚ)
  quietPeriods : List QuietPeriodW
  lastActiveTime : ℕ
  weeklyPattern : List (String × List ℕ)
deriving DecidableEq

/-- `ContextualFactors` (recommendationService.ts); only the fields the core
algorithms read are kept (`weatherImpact` etc. are never consulted). -/
structure ContextualFactors where
  dayOfWeek : ℕ
  isHoliday : Bool
deriving DecidableEq

/-- Models `this.userBehavior.responseRates[hour.toString()] || 0.5`:
the JS `||` substitutes the default both when the hour is absent and when the
stored value is the falsy number `0`. -/
def rateLookup (rates : List (ℕ × ℚ)) (h : ℕ) : ℚ :=
  match List.lookup h rates with
  | some v => if v = 0 then 1 / 2 else v
  | none => 1 / 2

/-- Models `this.userBehavior.averageResponseTime[hour.toString()] || 15`
(falsy default, as in `rateLookup`). -/
def avgTimeLookup (times : List (ℕ × ℚ)) (h : ℕ) : ℚ :=
  match List.lookup h times with
  | some v => if v = 0 then 15 else v
  | none => 15

/-- The day-name table of `SmartNotificationTiming.getDayName`. -/
def dayNames : List String :=
  ["sunday", "monday", "tuesday", "wednesday", "thursday", "friday", "saturday"]

/-- `SmartNotificationTiming.getDayName` (recommendationService.ts). -/
def getDayName (dayIndex : ℕ) : String := dayNames.getD dayIndex ""

/-- `this.userBehavior.weeklyPattern[dayName] || this.userBehavior.appUsageHours`
for the day of the given time.  An array is always truthy in JS (even when
empty), so only an absent key falls back to `appUsageHours`. -/
def todayPatternFor (ub : UserBehaviorPattern) (t : ℕ) : List ℕ :=
  match List.lookup (getDayName (dayOfWeekOf t)) ub.weeklyPattern with
  | some l => l
  | none => ub.appUsageHours

/-- `SmartNotificationTiming.getBabyScheduleConflict` (recommendationService.ts:654). -/
def getBabyScheduleConflict (bs : BabyScheduleData) (hour : ℕ) : ℚ :=
  let c1 := bs.napTimes.foldl
    (fun acc nap =>
      if isHourInRange (some (hour : ℚ)) (smartParseTime nap.start) (smartParseTime nap.stop)
      then acc + nap.reliability * (4 / 5) else acc) 0
  let c2 := bs.fussyPeriods.foldl
    (fun acc fussy =>
      if isHourInRange (some (hour : ℚ)) (smartParseTime fussy.start) (smartParseTime fussy.stop)
      then acc + fussy.intensity * (3 / 5) else acc) c1
  let c3 := if hour ∈ bs.feedingTimes then c2 + 1 / 5 else c2
  min c3 1

/-- The urgency levels accepted by the scheduler. -/
inductive Urgency
  | critical
  | high
  | medium
deriving DecidableEq

/-- The urgency subtype `'high' | 'medium'` taken by the inner predictor and
arbiter functions. -/
inductive Urg2
  | high
  | medium
deriving DecidableEq

/-- The content types of `predictOptimalTime`. -/
inductive ContentType
  | recall
  | development
  | general
deriving DecidableEq

/-- The per-hour score computed by the loop body of
`SmartNotificationTiming.calculateOptimalHour` (recommendationService.ts:606). -/
def scoreHour (ub : UserBehaviorPattern) (bs : BabyScheduleData) (cf : ContextualFactors)
    (u : Urg2) (ct : ContentType) (hour : ℕ) : ℚ :=
  let s1 := rateLookup ub.responseRates hour * 40
  let s2 := s1 + max 0 (20 - avgTimeLookup ub.averageResponseTime hour) * 2
  let s3 := s2 - getBabyScheduleConflict bs hour * 20
  let s4 := if u = Urg2.high then s3 * (13 / 10) else s3
  let s5 := if ct = ContentType.development ∧ (hour < 8 ∨ hour > 20) then s4 * (7 / 10) else s4
  if (cf.dayOfWeek = 0 ∨ cf.dayOfWeek = 6) ∧ hour < 9 then s5 * (4 / 5) else s5

/-- Insert a key into an ascending duplicate-free list of keys. -/
def insertKey (x : ℕ) : List ℕ → List ℕ
  | [] => [x]
  | y :: ys => if x < y then x :: y :: ys else if x = y then y :: ys else y :: insertKey x ys

/-- The key set of the JS object `hourScores` in enumeration order:
integer-like keys of a JS object are enumerated in ascending numeric order,
and assigning the same key twice keeps a single entry. -/
def objectKeys (l : List ℕ) : List ℕ := l.foldl (fun acc h => insertKey h acc) []

/-- First entry of maximal score in a scored list.  This models
`Object.entries(hourScores).sort(([, a], [, b]) => b - a)[0]`: the sort is
stable and the entries start in ascending key order, so the head of the
descending sort is the first (smallest-key) entry attaining the maximum. -/
def pickBest : List (ℕ × ℚ) → Option (ℕ × ℚ)
  | [] => none
  | p :: rest =>
    match pickBest rest with
    | none => some p
    | some q => if p.2 < q.2 then some q else some p

/-- Maximal score of a scored list (`none` when empty). -/
def maxScoreOf : List (ℕ × ℚ) → Option ℚ
  | [] => none
  | p :: rest =>
    some (match maxScoreOf rest with
          | none => p.2
          | some m => max p.2 m)

/-- The earliest entry attaining the maximal score of a scored list. -/
def selectEarliestMax (l : List (ℕ × ℚ)) : Option ℕ :=
  match maxScoreOf l with
  | none => none
  | some m => (l.find? (fun p => decide (p.2 = m))).map Prod.fst

/-- Models the return expression `sortedHours[0] || currentHour`:
`undefined` (empty list) and the falsy hour `0` both fall back to the
current hour. -/
def jsHourFallback : Option (ℕ × ℚ) → ℕ → ℕ
  | some (h, _), c => if h = 0 then c else h
  | none, c => c

/-- `SmartNotificationTiming.calculateOptimalHour` (recommendationService.ts:595). -/
def calculateOptimalHour (ub : UserBehaviorPattern) (bs : BabyScheduleData)
    (cf : ContextualFactors) (now : ℕ) (u : Urg2) (ct : ContentType) : ℕ :=
  let currentHour := hourOfTime now
  let todayPattern := todayPatternFor ub now
  let scored := (objectKeys todayPattern).map (fun h => (h, scoreHour ub bs cf u ct h))
  let sortedHead := pickBest scored
  if u = Urg2.high ∧ currentHour ∈ todayPattern then
    match todayPattern.filter (fun h => decide (currentHour ≤ h) && decide (h ≤ currentHour + 3)) with
    | f :: _ => f
    | [] => jsHourFallback sortedHead currentHour
  else jsHourFallback sortedHead currentHour

/-- `SmartNotificationTiming.createOptimalTime` (recommendationService.ts):
today at the given whole hour, rolled to tomorrow when already elapsed. -/
def createOptimalTime (now : ℕ) (hour : ℕ) : ℕ :=
  let t := now - now % 1440 + hour * 60
  if t ≤ now then t + 1440 else t

/-- The result record of `shouldDelayNotification`. -/
structure DelayDecision where
  shouldDelay : Bool
  reason : String
  confidence : ℚ
deriving DecidableEq

/-- The quiet-period loop of `shouldDelayNotification`. -/
def anyQuietConflict (qs : List QuietPeriodW) (t : ℕ) : Bool :=
  qs.any (fun q => isTimeInQuietPeriod t q)

/-- `SmartNotificationTiming.shouldDelayNotification` (recommendationService.ts:683).
The source's first test `proposedTime.getTime() - now.getTime() < 4*60*60*1000`
is signed ms arithmetic; over minute-valued naturals it is `proposedTime < now + 240`. -/
def shouldDelayNotification (ub : UserBehaviorPattern) (bs : BabyScheduleData)
    (proposedTime now : ℕ) (u : Urg2) : DelayDecision :=
  let proposedHour := hourOfTime proposedTime
  if u = Urg2.high ∧ proposedTime < now + 240 then ⟨false, "", 4 / 5⟩
  else if anyQuietConflict ub.quietPeriods proposedTime then
    ⟨true, "Proposed time conflicts with quiet hours", 9 / 10⟩
  else
    let sleepConflict := getBabyScheduleConflict bs proposedHour
    if sleepConflict > 7 / 10 then
      ⟨true, "Baby is likely sleeping or in a fussy period", sleepConflict⟩
    else
      let responseRate := rateLookup ub.responseRates proposedHour
      if responseRate < 3 / 10 ∧ u = Urg2.medium then
        ⟨true, "User historically unresponsive at this time", 1 - responseRate⟩
      else ⟨false, "", 4 / 5⟩

/-- Acceptance test of one loop iteration of `findNextOptimalTime`: the
candidate is outside every quiet period and its hour has a looked-up response
rate above 0.5. -/
def acceptCandidate (ub : UserBehaviorPattern) (candidate : ℕ) : Bool :=
  !anyQuietConflict ub.quietPeriods candidate &&
    decide (rateLookup ub.responseRates (hourOfTime candidate) > 1 / 2)

/-- The `for (let i = 1; i <= maxDelay; i++)` loop of `findNextOptimalTime`:
`i` is the current step, the second argument the remaining iterations. -/
def findLoop (ub : UserBehaviorPattern) (originalTime : ℕ) : ℕ → ℕ → Option ℕ
  | _, 0 => none
  | i, fuel + 1 =>
    let candidate := originalTime + i * 60
    if acceptCandidate ub candidate then some candidate
    else findLoop ub originalTime (i + 1) fuel

/-- The delay cap of `findNextOptimalTime` in hours. -/
def capOf (u : Urg2) : ℕ := if u = Urg2.high then 6 else 24

/-- The fallback next active hour of `findNextOptimalTime`:
`todayPattern.find(hour => hour > originalTime.getHours()) || todayPattern[0]`
(a found hour is positive, hence truthy, so only `undefined` falls through). -/
def nextActiveHourOf (ub : UserBehaviorPattern) (originalTime : ℕ) : Option ℕ :=
  ((todayPatternFor ub originalTime).find? (fun h => decide (hourOfTime originalTime < h))).orElse
    (fun _ => (todayPatternFor ub originalTime).head?)

/-- The fallback branch of `findNextOptimalTime`: the original date at the
next active hour, moved a day later when earlier than `now` plus one hour.
`none` models the Invalid Date the source produces from an empty pattern
(`setHours(undefined)`). -/
def fallbackTimeOf (ub : UserBehaviorPattern) (originalTime now : ℕ) : Option ℕ :=
  (nextActiveHourOf ub originalTime).map (fun h =>
    let fallbackTime := originalTime - originalTime % 1440 + h * 60
    if fallbackTime < now + 60 then fallbackTime + 1440 else fallbackTime)

/-- `SmartNotificationTiming.findNextOptimalTime` (recommendationService.ts:729). -/
def findNextOptimalTime (ub : UserBehaviorPattern) (originalTime now : ℕ) (u : Urg2) : Option ℕ :=
  match findLoop ub originalTime 1 (capOf u) with
  | some t => some t
  | none => fallbackTimeOf ub originalTime now

/-- `SmartNotificationTiming.calculateConfidence` (recommendationService.ts:767). -/
def calculateConfidence (ub : UserBehaviorPattern) (bs : BabyScheduleData)
    (hour : ℕ) (u : Urg2) : ℚ :=
  let c1 : ℚ := 7 / 10
  let c2 := if hour ∈ ub.appUsageHours then c1 + 1 / 5 else c1
  let c3 := c2 + rateLookup ub.responseRates hour * (3 / 10)
  let c4 := c3 + (1 - getBabyScheduleConflict bs hour) * (1 / 5)
  let c5 := if u = Urg2.high then c4 + 1 / 10 else c4
  min c5 1

/-- `SmartNotificationTiming.generateReasoning` (recommendationService.ts);
the `contentType` parameter is never read by the source body. -/
def generateReasoning (ub : UserBehaviorPattern) (bs : BabyScheduleData)
    (hour : ℕ) (u : Urg2) (_ct : ContentType) : String :=
  let r1 : List String :=
    if hour ∈ ub.appUsageHours then ["user typically active at this time"] else []
  let r2 :=
    if rateLookup ub.responseRates hour > 7 / 10 then r1 ++ ["high historical response rate"] else r1
  let r3 :=
    if getBabyScheduleConflict bs hour < 3 / 10 then r2 ++ ["low conflict with baby\x27s schedule"] else r2
  let r4 :=
    if avgTimeLookup ub.averageResponseTime hour < 10 then r3 ++ ["user typically responds quickly"] else r3
  let r5 :=
    if u = Urg2.high then r4 ++ ["prioritized for safety importance"] else r4
  "Optimal timing based on: " ++ String.intercalate ", " r5

/-- `SmartNotificationTiming.generateAlternatives` (recommendationService.ts).
Negative offsets are computed in ℤ and clamped by `Int.toNat`; times within
two hours of the epoch are out of scope. -/
def generateAlternatives (ub : UserBehaviorPattern) (primaryTime : ℕ) : List ℕ :=
  let offsets : List ℤ := [-2, -1, 1, 2]
  offsets.foldl
    (fun alts off =>
      if alts.length ≥ 3 then alts
      else
        let altTime := ((primaryTime : ℤ) + off * 60).toNat
        let altHour := hourOfTime altTime
        if altHour ∈ ub.appUsageHours ∧ rateLookup ub.responseRates altHour > 2 / 5 then
          alts ++ [altTime]
        else alts)
    []

/-- The result record of `predictOptimalTime`; `recommendedTime = none`
models an Invalid Date. -/
structure OptimalTimingResult where
  recommendedTime : Option ℕ
  confidence : ℚ
  reasoning : String
  alternativeTimes : List ℕ
  shouldDelayReason : Option String
deriving DecidableEq

/-- The non-critical body of `predictOptimalTime` (recommendationService.ts:556). -/
def predictGo (ub : UserBehaviorPattern) (bs : BabyScheduleData) (cf : ContextualFactors)
    (now : ℕ) (u : Urg2) (ct : ContentType) : OptimalTimingResult :=
  let optimalHour := calculateOptimalHour ub bs cf now u ct
  let optimalTime := createOptimalTime now optimalHour
  let delayCheck := shouldDelayNotification ub bs optimalTime now u
  if delayCheck.shouldDelay then
    let delayedTime := findNextOptimalTime ub optimalTime now u
    { recommendedTime := delayedTime
      confidence := delayCheck.confidence
      reasoning := delayCheck.reason
      alternativeTimes := match delayedTime with | some t => generateAlternatives ub t | none => []
      shouldDelayReason := some delayCheck.reason }
  else
    { recommendedTime := some optimalTime
      confidence := calculateConfidence ub bs optimalHour u
      reasoning := generateReasoning ub bs optimalHour u ct
      alternativeTimes := generateAlternatives ub optimalTime
      shouldDelayReason := none }

/-- `SmartNotificationTiming.predictOptimalTime` (recommendationService.ts:556):
critical urgency short-circuits to "now" with confidence 1. -/
def predictOptimalTime (ub : UserBehaviorPattern) (bs : BabyScheduleData)
    (cf : ContextualFactors) (now : ℕ) (u : Urgency) (ct : ContentType) : OptimalTimingResult :=
  match u with
  | Urgency.critical =>
    { recommendedTime := some now
      confidence := 1
      reasoning := "Critical safety alerts are delivered immediately regardless of timing"
      alternativeTimes := []
      shouldDelayReason := none }
  | Urgency.high => predictGo ub bs cf now Urg2.high ct
  | Urgency.medium => predictGo ub bs cf now Urg2.medium ct

/-- The actions a user can take on a delivered notification. -/
inductive ResponseAction
  | opened
  | dismissed
  | acted
deriving DecidableEq

/-- Replace the value at a key in an association list, appending when absent
(JS object assignment, up to enumeration order, which nothing verified reads). -/
def setAssoc {α β : Type} [DecidableEq α] (l : List (α × β)) (k : α) (v : β) : List (α × β) :=
  if l.any (fun p => decide (p.1 = k)) then
    l.map (fun p => if p.1 = k then (k, v) else p)
  else l ++ [(k, v)]

/-- `SmartNotificationTiming.recordNotificationResponse` (recommendationService.ts:930).
`deliveredAt = none` (an Invalid Date reaching the learning call) would update
a `"NaN"` key in the source; that corner is left as the identity here and is
not relied on by any theorem. -/
def recordNotificationResponse (ub : UserBehaviorPattern) (_notificationId : String)
    (deliveredAt : Option ℕ) (respondedAt : ℕ) (actionTaken : ResponseAction) :
    UserBehaviorPattern :=
  match deliveredAt with
  | none => ub
  | some d =>
    let hour := hourOfTime d
    let responseTime : ℚ := ((respondedAt : ℤ) - (d : ℤ) : ℤ)
    let currentRate := rateLookup ub.responseRates hour
    let responseValue : ℚ :=
      match actionTaken with
      | ResponseAction.acted => 1
      | ResponseAction.opened => 7 / 10
      | ResponseAction.dismissed => 1 / 5
    let currentAvgTime := avgTimeLookup ub.averageResponseTime hour
    { ub with
      responseRates :=
        setAssoc ub.responseRates hour (currentRate * (4 / 5) + responseValue * (1 / 5))
      averageResponseTime :=
        setAssoc ub.averageResponseTime hour (currentAvgTime * (4 / 5) + responseTime * (1 / 5)) }

/-- UTF-16 lexicographic comparison of character lists (JS string `<`). -/
def charListLt : List Char → List Char → Bool
  | [], [] => false
  | [], _ :: _ => true
  | _ :: _, [] => false
  | a :: as, b :: bs =>
    if a.toNat < b.toNat then true
    else if b.toNat < a.toNat then false
    else charListLt as bs

/-- JS default sort order on numbers: compare their decimal string forms. -/
def jsStrLt (a b : ℕ) : Bool := charListLt (Nat.repr a).data (Nat.repr b).data

/-- Insertion step for `jsSortNat`. -/
def jsSortInsert (x : ℕ) : List ℕ → List ℕ
  | [] => [x]
  | y :: ys => if jsStrLt x y then x :: y :: ys else y :: jsSortInsert x ys

/-- Models `Array.prototype.sort()` with NO comparator on a number array:
JS converts the elements to strings and orders them lexicographically
(so e.g. 12 sorts before 7). -/
def jsSortNat (l : List ℕ) : List ℕ := l.foldr jsSortInsert []

/-- `SmartNotificationTiming.recordAppUsage` (recommendationService.ts:953). -/
def recordAppUsage (ub : UserBehaviorPattern) (timestamp : ℕ) : UserBehaviorPattern :=
  let hour := hourOfTime timestamp
  let appUsageHours :=
    if hour ∈ ub.appUsageHours then ub.appUsageHours
    else jsSortNat (ub.appUsageHours ++ [hour])
  let dayName := getDayName (dayOfWeekOf timestamp)
  let dayPattern :=
    match List.lookup dayName ub.weeklyPattern with
    | some l => l
    | none => []
  let dayPattern' :=
    if hour ∈ dayPattern then dayPattern
    else jsSortNat (dayPattern ++ [hour])
  { ub with
    appUsageHours := appUsageHours
    weeklyPattern := setAssoc ub.weeklyPattern dayName dayPattern'
    lastActiveTime := timestamp }

/-- `SmartNotificationTiming.shouldDeliverNow` (recommendationService.ts:846).
The source also calls `predictOptimalTime('high')` into an unused local;
being pure, the call is dropped here. -/
def shouldDeliverNow (ub : UserBehaviorPattern) (bs : BabyScheduleData)
    (scheduledTime : Option ℕ) (now : ℕ) (u : Urgency) : Bool :=
  match u with
  | Urgency.critical => true
  | _ =>
    match scheduledTime with
    | none => false
    | some t =>
      if t ≤ now then true
      else if t ≤ now + 5 then true
      else if u = Urgency.high then
        decide (calculateConfidence ub bs (hourOfTime now) Urg2.high >
          calculateConfidence ub bs (hourOfTime t) Urg2.high + 1 / 5)
      else false

/-- Quiet-hours block of the high-urgency preferences (`end` field renamed `stop`). -/
structure QuietHoursPref where
  enabled : Bool
  start : String
  stop : String
deriving DecidableEq

/-- `'immediate' | 'next_optimal' | 'evening_digest'`. -/
inductive HighSchedule
  | immediate
  | next_optimal
  | evening_digest
deriving DecidableEq

/-- `'immediate' | 'daily_digest' | 'weekly' | 'disabled'`. -/
inductive MediumFrequency
  | immediate
  | daily_digest
  | weekly
  | disabled
deriving DecidableEq

/-- `'development_tips' | 'weekly_summary' | 'standalone'`. -/
inductive BatchWith
  | development_tips
  | weekly_summary
  | standalone
deriving DecidableEq

/-- The `critical` block of `NotificationPreferences`. -/
structure CriticalPref where
  enabled : Bool
  disabled : Bool
deriving DecidableEq

/-- The `high` block of `NotificationPreferences`. -/
structure HighPref where
  enabled : Bool
  schedule : HighSchedule
  quietHours : QuietHoursPref
deriving DecidableEq

/-- The `medium` block of `NotificationPreferences`. -/
structure MediumPref where
  enabled : Bool
  frequency : MediumFrequency
  batchWith : BatchWith
deriving DecidableEq

/-- The `general` block of `NotificationPreferences`. -/
structure GeneralPref where
  sound : Bool
  vibration : Bool
  showOnLockscreen : Bool
  groupSimilar : Bool
deriving DecidableEq

/-- `NotificationPreferences` (NotificationService.ts:4). -/
structure NotificationPreferences where
  critical : CriticalPref
  high : HighPref
  medium : MediumPref
  general : GeneralPref
deriving DecidableEq

/-- A partial `NotificationPreferences` as accepted by `updatePreferences`
(the TS spread is shallow: each provided top-level block replaces the whole
previous block). -/
structure PartialPreferences where
  critical : Option CriticalPref := none
  high : Option HighPref := none
  medium : Option MediumPref := none
  general : Option GeneralPref := none

/-- `NotificationService.updatePreferences` (NotificationService.ts:130):
shallow merge of the partial update, with NO validation of the contained
time strings; when a `high` block is supplied its quiet hours are mirrored
into the smart-timing behaviour pattern.  Returns the new preferences and
the new behaviour pattern. -/
def updatePreferences (prefs : NotificationPreferences) (ub : UserBehaviorPattern)
    (newPreferences : PartialPreferences) :
    NotificationPreferences × UserBehaviorPattern :=
  let prefs' : NotificationPreferences :=
    { critical := newPreferences.critical.getD prefs.critical
      high := newPreferences.high.getD prefs.high
      medium := newPreferences.medium.getD prefs.medium
      general := newPreferences.general.getD prefs.general }
  let ub' :=
    match newPreferences.high with
    | some _ =>
      { ub with quietPeriods := [⟨prefs'.high.quietHours.start, prefs'.high.quietHours.stop⟩] }
    | none => ub
  (prefs', ub')

/-- `NotificationService.isInQuietHours` (NotificationService.ts:161); the
current wall-clock minutes are taken from the `now` parameter. -/
def isInQuietHours (prefs : NotificationPreferences) (now : ℕ) : Bool :=
  if !prefs.high.quietHours.enabled then false
  else
    let currentTime : Option ℚ := some (minutesOfDay now : ℚ)
    let start := nsParseTime prefs.high.quietHours.start
    let stop := nsParseTime prefs.high.quietHours.stop
    if jsGt start stop then jsGe currentTime start || jsLe currentTime stop
    else jsGe currentTime start && jsLe currentTime stop

/-- `NotificationService.getEveningDigestTime` (NotificationService.ts:286):
today 19:00, or tomorrow 19:00 when already past. -/
def getEveningDigestTime (now : ℕ) : ℕ :=
  let t := now - now % 1440 + 19 * 60
  if t ≤ now then t + 1440 else t

/-- The `{ time, reasoning, confidence }` record returned by
`calculateOptimalDeliveryTime`. -/
structure DeliveryTiming where
  time : Option ℕ
  reasoning : String
  confidence : ℚ
deriving DecidableEq

/-- `NotificationService.calculateOptimalDeliveryTime` (NotificationService.ts:206). -/
def calculateOptimalDeliveryTime (prefs : NotificationPreferences)
    (ub : UserBehaviorPattern) (bs : BabyScheduleData) (cf : ContextualFactors)
    (now : ℕ) (u : Urgency) : DeliveryTiming :=
  match u with
  | Urgency.critical =>
    ⟨some now, "Critical safety alerts are delivered immediately", 1⟩
  | Urgency.high =>
    let optimalResult := predictOptimalTime ub bs cf now Urgency.high ContentType.recall
    match prefs.high.schedule with
    | HighSchedule.immediate =>
      if !isInQuietHours prefs now then
        ⟨some now, "User preference: immediate delivery outside quiet hours", 4 / 5⟩
      else ⟨optimalResult.recommendedTime, optimalResult.reasoning, optimalResult.confidence⟩
    | HighSchedule.evening_digest =>
      ⟨some (getEveningDigestTime now), "User preference: evening digest delivery", 9 / 10⟩
    | HighSchedule.next_optimal =>
      ⟨optimalResult.recommendedTime, optimalResult.reasoning, optimalResult.confidence⟩
  | Urgency.medium =>
    let optimalResult := predictOptimalTime ub bs cf now Urgency.medium ContentType.recall
    ⟨optimalResult.recommendedTime, optimalResult.reasoning, optimalResult.confidence⟩

/-- `ScheduledNotification` (NotificationService.ts:31); optional fields the
source leaves unset are `none`. -/
structure ScheduledNotification where
  id : String
  recallId : String
  type : Urgency
  title : String
  body : String
  scheduledFor : Option ℕ
  personalizedMessage : Option String
  actionUrl : Option String
  priority : ℕ
  timingReasoning : Option String
  confidence : Option ℚ
deriving DecidableEq

/-- `NotificationService.generatePersonalizedMessage` (NotificationService.ts:183);
the random pick among the three canned messages is modelled by `rand % 3`. -/
def generatePersonalizedMessage (babyName : String) (recallType : Urgency)
    (productName : String) (rand : ℕ) : String :=
  let criticalMsgs : List String :=
    ["🚨 URGENT: " ++ productName ++ " recall affects " ++ babyName ++ "\x27s safety",
     "⚠️ CRITICAL: Stop using " ++ productName ++ " immediately for " ++ babyName,
     "🛡️ SAFETY ALERT: " ++ productName ++ " recall - " ++ babyName ++ " needs immediate attention"]
  let highMsgs : List String :=
    ["⚠️ Important recall: " ++ productName ++ " may affect " ++ babyName,
     "🔍 Safety update: Check your " ++ productName ++ " for " ++ babyName,
     "📢 Product alert: " ++ productName ++ " recall relevant to " ++ babyName ++ "\x27s age"]
  let mediumMsgs : List String :=
    ["📋 Safety notice: " ++ productName ++ " recall to be aware of",
     "ℹ️ Product update: " ++ productName ++ " recall information",
     "🔔 Recall notice: " ++ productName ++ " - stay informed"]
  let typeMessages :=
    match recallType with
    | Urgency.critical => criticalMsgs
    | Urgency.high => highMsgs
    | Urgency.medium => mediumMsgs
  typeMessages.getD (rand % 3) ""

/-- The pending-notification map `scheduledNotifications`, modelled as an
association list keyed by id (keyed access only). -/
abbrev NState := List (String × ScheduledNotification)

/-- Keyed lookup in the pending map (`Map.get`). -/
def lookupPending (st : NState) (id : String) : Option ScheduledNotification :=
  List.lookup id st

/-- Membership in the pending map (`Map.has`). -/
def containsPending (st : NState) (id : String) : Bool :=
  st.any (fun p => decide (p.1 = id))

/-- `Map.delete` on the pending map. -/
def erasePending (st : NState) (id : String) : NState :=
  st.filter (fun p => decide (p.1 ≠ id))

/-- `Map.set` on the pending map (up to enumeration order). -/
def insertPending (st : NState) (id : String) (n : ScheduledNotification) : NState :=
  (id, n) :: erasePending st id

/-- The outward effects a scheduling step produces: a dispatched notification
(the browser `Notification` hand-off, modelled as succeeding; permission
handling is out of scope) or a registered fire-time timer. -/
inductive Effect
  | sent (n : ScheduledNotification)
  | timerSet (id : String) (due : Option ℕ) (u : Urgency)
deriving DecidableEq

/-- JS `a <= b` where `a` is a possibly-invalid Date (`none` compares false). -/
def jsLeTime : Option ℕ → ℕ → Bool
  | some a, b => decide (a ≤ b)
  | none, _ => false

/-- `NotificationService.scheduleRecallNotification` (NotificationService.ts:321).
Returns the accepted flag, the new pending map and the produced effects.
The notification id embeds `Date.now()` as `toString now`. -/
def scheduleRecallNotification (prefs : NotificationPreferences)
    (ub : UserBehaviorPattern) (bs : BabyScheduleData) (cf : ContextualFactors)
    (babyName recallId : String) (urgencyLevel : Urgency)
    (productName hazardDescription : String) (st : NState) (now rand : ℕ) :
    Bool × NState × List Effect :=
  if urgencyLevel = Urgency.high ∧ ¬prefs.high.enabled then (false, st, [])
  else if urgencyLevel = Urgency.medium ∧ ¬prefs.medium.enabled then (false, st, [])
  else
    let timingResult := calculateOptimalDeliveryTime prefs ub bs cf now urgencyLevel
    let personalizedMessage := generatePersonalizedMessage babyName urgencyLevel productName rand
    let notification : ScheduledNotification :=
      { id := "recall-" ++ recallId ++ "-" ++ toString now
        recallId := recallId
        type := urgencyLevel
        title := personalizedMessage
        body := hazardDescription
        scheduledFor := timingResult.time
        personalizedMessage := some personalizedMessage
        actionUrl := some ("/recalls/" ++ recallId)
        priority :=
          if urgencyLevel = Urgency.critical then 10
          else if urgencyLevel = Urgency.high then 7 else 4
        timingReasoning := some timingResult.reasoning
        confidence := some timingResult.confidence }
    let st' := insertPending st notification.id notification
    if jsLeTime timingResult.time now then
      (true, st', [Effect.sent notification])
    else
      (true, st', [Effect.timerSet notification.id timingResult.time urgencyLevel])

/-- The deferred `setTimeout` body registered by `scheduleRecallNotification`
(NotificationService.ts:358): re-check `shouldDeliverNow`, send when it holds,
then delete the pending record unconditionally. -/
def fireTimerCallback (ub : UserBehaviorPattern) (bs : BabyScheduleData)
    (notification : ScheduledNotification) (st : NState) (now : ℕ) :
    NState × List Effect :=
  (erasePending st notification.id,
   if shouldDeliverNow ub bs notification.scheduledFor now notification.type then
     [Effect.sent notification]
   else [])

/-- `NotificationService.sendCriticalRecallAlert` (NotificationService.ts:413):
builds a critical record (no `timingReasoning`, no `confidence`) and sends it
at once, WITHOUT touching the pending map. -/
def sendCriticalRecallAlert (babyName recallId productName hazardDescription : String)
    (now rand : ℕ) : ScheduledNotification × List Effect :=
  let notification : ScheduledNotification :=
    { id := "critical-" ++ recallId ++ "-" ++ toString now
      recallId := recallId
      type := Urgency.critical
      title := "🚨 URGENT: " ++ productName ++ " Safety Alert"
      body := "Stop using immediately. " ++ hazardDescription
      scheduledFor := some now
      personalizedMessage := some (generatePersonalizedMessage babyName Urgency.critical productName rand)
      actionUrl := some ("/recalls/" ++ recallId)
      priority := 10
      timingReasoning := none
      confidence := none }
  (notification, [Effect.sent notification])

/-- `NotificationService.cancelNotification` (NotificationService.ts:439):
`Map.delete` returns whether the id was present. -/
def cancelNotification (st : NState) (notificationId : String) : Bool × NState :=
  (containsPending st notificationId, erasePending st notificationId)

/-- `NotificationService.recordNotificationInteraction` (NotificationService.ts:449):
a lookup miss does nothing; a hit feeds the learning update, which never
touches the pending map. -/
def recordNotificationInteraction (ub : UserBehaviorPattern) (st : NState)
    (notificationId : String) (now : ℕ) (action : ResponseAction) :
    UserBehaviorPattern × NState :=
  match lookupPending st notificationId with
  | none => (ub, st)
  | some notification =>
    (recordNotificationResponse ub notificationId notification.scheduledFor now action, st)

/-! ### Spec-side definitions

These follow the wording of the specification / claims (for refinement
comparisons with the source embeddings above), plus concrete fixtures. -/

/-- Spec wording: sum over all naps whose window contains the hour of
`reliability × 0.8`. -/
def napConflictSum (bs : BabyScheduleData) (hour : ℕ) : ℚ :=
  ((bs.napTimes.filter (fun nap =>
      isHourInRange (some (hour : ℚ)) (smartParseTime nap.start) (smartParseTime nap.stop))).map
    (fun nap => nap.reliability * (4 / 5))).sum

/-- Spec wording: sum over fussy periods containing the hour of
`intensity × 0.6`. -/
def fussyConflictSum (bs : BabyScheduleData) (hour : ℕ) : ℚ :=
  ((bs.fussyPeriods.filter (fun fussy =>
      isHourInRange (some (hour : ℚ)) (smartParseTime fussy.start) (smartParseTime fussy.stop))).map
    (fun fussy => fussy.intensity * (3 / 5))).sum

/-- Spec wording: plus 0.2 if the hour is a feeding hour. -/
def feedingTerm (bs : BabyScheduleData) (hour : ℕ) : ℚ :=
  if hour ∈ bs.feedingTimes then 1 / 5 else 0

/-- The claim's conflict value: `min(1.0, napSum + fussySum + feedingTerm)`. -/
def claimConflict (bs : BabyScheduleData) (hour : ℕ) : ℚ :=
  min 1 (napConflictSum bs hour + fussyConflictSum bs hour + feedingTerm bs hour)

/-- The response rate as the claim reads it: the stored per-hour rate, with
0.5 only for hours that are absent from the profile. -/
def claimResponseRate (ub : UserBehaviorPattern) (h : ℕ) : ℚ :=
  (List.lookup h ub.responseRates).getD (1 / 2)

/-- The delay decision exactly as claim C5 words it (literal stored response
rate); first component: delay?, second: confidence. -/
def shouldDelayClaimed (ub : UserBehaviorPattern) (bs : BabyScheduleData)
    (proposedTime now : ℕ) (u : Urg2) : Bool × ℚ :=
  if u = Urg2.high ∧ proposedTime < now + 240 then (false, 4 / 5)
  else if anyQuietConflict ub.quietPeriods proposedTime then (true, 9 / 10)
  else if claimConflict bs (hourOfTime proposedTime) > 7 / 10 then
    (true, claimConflict bs (hourOfTime proposedTime))
  else if u = Urg2.medium ∧ claimResponseRate ub (hourOfTime proposedTime) < 3 / 10 then
    (true, 1 - claimResponseRate ub (hourOfTime proposedTime))
  else (false, 4 / 5)

/-- The amended delay rule list: as claim C5, but the response rate is the
profile lookup in which a stored 0 also reads as the 0.5 default (the JS
falsy `||`). -/
def shouldDelayAmended (ub : UserBehaviorPattern) (bs : BabyScheduleData)
    (proposedTime now : ℕ) (u : Urg2) : Bool × ℚ :=
  if u = Urg2.high ∧ proposedTime < now + 240 then (false, 4 / 5)
  else if anyQuietConflict ub.quietPeriods proposedTime then (true, 9 / 10)
  else if claimConflict bs (hourOfTime proposedTime) > 7 / 10 then
    (true, claimConflict bs (hourOfTime proposedTime))
  else if rateLookup ub.responseRates (hourOfTime proposedTime) < 3 / 10 ∧ u = Urg2.medium then
    (true, 1 - rateLookup ub.responseRates (hourOfTime proposedTime))
  else (false, 4 / 5)

/-- The amended optimal-hour selection of claim C3: same candidates and
scores, but the winner is the earliest hour attaining the maximal score, an
empty candidate set or a winning hour 0 falls back to the current hour, and
the high-urgency shortcut takes the first pattern-order candidate within the
next three hours. -/
def calculateOptimalHourAmended (ub : UserBehaviorPattern) (bs : BabyScheduleData)
    (cf : ContextualFactors) (now : ℕ) (u : Urg2) (ct : ContentType) : ℕ :=
  let currentHour := hourOfTime now
  let todayPattern := todayPatternFor ub now
  let scored := (objectKeys todayPattern).map (fun h => (h, scoreHour ub bs cf u ct h))
  if u = Urg2.high ∧ currentHour ∈ todayPattern ∧
      todayPattern.filter (fun h => decide (currentHour ≤ h) && decide (h ≤ currentHour + 3)) ≠ [] then
    (todayPattern.filter (fun h => decide (currentHour ≤ h) && decide (h ≤ currentHour + 3))).headD
      currentHour
  else
    match selectEarliestMax scored with
    | some h => if h = 0 then currentHour else h
    | none => currentHour

/-- The character of a decimal digit. -/
def digitChar (n : ℕ) : Char := Char.ofNat (48 + n)

/-- Two-digit decimal rendering of `n < 100`. -/
def pad2 (n : ℕ) : List Char :=
  if n < 10 then ['0', digitChar n] else [digitChar (n / 10), digitChar (n % 10)]

/-- The string `"HH:MM"` for the given hour and minute values. -/
def hhmm (h m : ℕ) : String := String.mk (pad2 h ++ ':' :: pad2 m)

/-! ### Concrete fixtures -/

/-- The default `userBehavior` of the `SmartNotificationTiming` constructor. -/
def defaultUserBehavior : UserBehaviorPattern :=
  { appUsageHours := [7, 8, 12, 15, 19, 21]
    responseRates := [(7, 17/20), (8, 9/10), (12, 3/4), (15, 4/5), (19, 17/20), (21, 7/10)]
    averageResponseTime := [(7, 5), (8, 3), (12, 15), (15, 8), (19, 5), (21, 20)]
    quietPeriods := [⟨"22:00", "07:00"⟩, ⟨"13:00", "15:00"⟩]
    lastActiveTime := 0
    weeklyPattern :=
      [("monday", [8, 12, 19]), ("tuesday", [7, 12, 15, 19]), ("wednesday", [8, 12, 19, 21]),
       ("thursday", [7, 12, 15, 19]), ("friday", [8, 12, 19, 21]), ("saturday", [9, 14, 20]),
       ("sunday", [10, 15, 19])] }

/-- The default `babySchedule` of the `SmartNotificationTiming` constructor. -/
def defaultBabySchedule : BabyScheduleData :=
  { napTimes := [⟨"09:30", "11:00", 4/5⟩, ⟨"13:00", "15:00", 9/10⟩, ⟨"17:30", "18:00", 3/5⟩]
    bedtime := ⟨"19:30", 17/20⟩
    wakeupTime := ⟨"07:00", 3/4⟩
    feedingTimes := [7, 10, 13, 16, 19, 22]
    fussyPeriods := [⟨"17:00", "19:00", 4/5⟩, ⟨"05:00", "06:00", 3/5⟩] }

/-- The default preferences of the `NotificationService` constructor. -/
def defaultPreferences : NotificationPreferences :=
  { critical := ⟨true, true⟩
    high := ⟨true, HighSchedule.immediate, ⟨true, "22:00", "07:00"⟩⟩
    medium := ⟨true, MediumFrequency.daily_digest, BatchWith.development_tips⟩
    general := ⟨true, true, true, true⟩ }

/-- A baby schedule with no naps, feedings or fussy periods. -/
def emptyBabySchedule : BabyScheduleData :=
  { napTimes := []
    bedtime := ⟨"19:30", 1⟩
    wakeupTime := ⟨"07:00", 1⟩
    feedingTimes := []
    fussyPeriods := [] }

/-- C3 fixture: the Thursday pattern holds only hour 0 (midnight). -/
def ubC3 : UserBehaviorPattern :=
  { appUsageHours := [0]
    responseRates := []
    averageResponseTime := []
    quietPeriods := []
    lastActiveTime := 0
    weeklyPattern := [("thursday", [0])] }

/-- C5 fixture: a stored response rate of exactly 0 at hour 10, no quiet
periods. -/
def ubC5 : UserBehaviorPattern :=
  { appUsageHours := []
    responseRates := [(10, 0)]
    averageResponseTime := []
    quietPeriods := []
    lastActiveTime := 0
    weeklyPattern := [] }

/-- C5 scenario fixture: behaviour pattern without quiet periods. -/
def ubNoQuiet : UserBehaviorPattern :=
  { appUsageHours := [9, 14]
    responseRates := [(9, 4/5), (14, 4/5)]
    averageResponseTime := [(9, 5), (14, 5)]
    quietPeriods := []
    lastActiveTime := 0
    weeklyPattern := [] }

/-- C5 scenario fixture: a single nap 13:00–15:00 with reliability 0.9. -/
def bsNap : BabyScheduleData :=
  { napTimes := [⟨"13:00", "15:00", 9/10⟩]
    bedtime := ⟨"19:30", 1⟩
    wakeupTime := ⟨"07:00", 1⟩
    feedingTimes := []
    fussyPeriods := [] }

/-- Neutral contextual factors (a weekday). -/
def cfWeekday : ContextualFactors := ⟨4, false⟩

/-- C9 fixture: active hours 7 and 8 recorded so far. -/
def ubC9 : UserBehaviorPattern :=
  { appUsageHours := [7, 8]
    responseRates := []
    averageResponseTime := []
    quietPeriods := []
    lastActiveTime := 0
    weeklyPattern := [] }

/-- A sample held notification for concrete state-machine checks. -/
def sampleNotification : ScheduledNotification :=
  { id := "recall-r1-900"
    recallId := "r1"
    type := Urgency.high
    title := "t"
    body := "b"
    scheduledFor := some 2000
    personalizedMessage := none
    actionUrl := none
    priority := 7
    timingReasoning := none
    confidence := some (4 / 5) }

/-- A pending map holding just the sample notification. -/
def st10 : NState := [("recall-r1-900", sampleNotification)]

end BeSaavy

namespace BeSaavy

/-! ### Helper lemmas -/

/-- Evaluation bridge for `nsParseTime` at a concrete string. -/
theorem nsParseTime_eval (s : String) (h m : ℕ)
    (h0 : ((splitCols s.data).map jsNumberL).get? 0 = some (some h))
    (h1 : ((splitCols s.data).map jsNumberL).get? 1 = some (some m)) :
    nsParseTime s = some ((h : ℚ) * 60 + (m : ℚ)) := by
  simp only [nsParseTime, h0, h1]

/-- Evaluation bridge for `smartParseTime` at a concrete string. -/
theorem smartParseTime_eval (s : String) (h m : ℕ)
    (h0 : ((splitCols s.data).map jsNumberL).get? 0 = some (some h))
    (h1 : ((splitCols s.data).map jsNumberL).get? 1 = some (some m)) :
    smartParseTime s = some ((h : ℚ) + (m : ℚ) / 60) := by
  simp only [smartParseTime, h0, h1]

theorem nsp_2200 : nsParseTime ("22:00") = some 1320 := by
  rw [nsParseTime_eval ("22:00") 22 0 (by decide) (by decide)]; norm_num

theorem nsp_0700 : nsParseTime ("07:00") = some 420 := by
  rw [nsParseTime_eval ("07:00") 7 0 (by decide) (by decide)]; norm_num

theorem smp_1300 : smartParseTime ("13:00") = some 13 := by
  rw [smartParseTime_eval ("13:00") 13 0 (by decide) (by decide)]; norm_num

theorem smp_1500 : smartParseTime ("15:00") = some 15 := by
  rw [smartParseTime_eval ("15:00") 15 0 (by decide) (by decide)]; norm_num

/-- A fold that conditionally accumulates equals the initial value plus the
sum over the filtered, mapped list. -/
theorem foldl_filter_sum {α : Type} (l : List α) (p : α → Bool) (f : α → ℚ) (init : ℚ) :
    l.foldl (fun acc a => if p a then acc + f a else acc) init
      = init + ((l.filter p).map f).sum := by
  induction l generalizing init with
  | nil => simp
  | cons a l ih =>
    by_cases h : p a = true
    · simp only [List.foldl_cons, List.filter_cons, h, if_pos, List.map_cons, List.sum_cons, ih]
      ring
    · simp only [List.foldl_cons, List.filter_cons, h, if_neg, List.map_cons, ih]
      simp [h]

/-- The source conflict fold equals the spec's capped sum form. -/
theorem conflict_eq (bs : BabyScheduleData) (hour : ℕ) :
    getBabyScheduleConflict bs hour = claimConflict bs hour := by
  unfold getBabyScheduleConflict claimConflict napConflictSum fussyConflictSum feedingTerm
  simp only [foldl_filter_sum]
  by_cases h : hour ∈ bs.feedingTimes
  · simp only [h, if_pos]
    rw [min_comm]
    congr 1
    ring
  · simp only [h, if_neg, not_false_iff]
    rw [min_comm]
    congr 1
    ring

theorem conflict_bsNap : getBabyScheduleConflict bsNap 14 = 18 / 25 := by
  simp only [getBabyScheduleConflict, bsNap, List.foldl, smp_1300, smp_1500,
    isHourInRange, jsGe, jsLe]
  norm_num

theorem conflict_empty (hour : ℕ) : getBabyScheduleConflict emptyBabySchedule hour = 0 := by
  simp only [getBabyScheduleConflict, emptyBabySchedule, List.foldl]
  norm_num

/-- Claim C2: `isHourInRange` realises the inclusive in-range test with
overnight wraparound; with quiet hours 22:00–07:00 the quiet check is true at
23:30 and 03:00 and false at 12:00; nap and fussy containment in the conflict
score use the same `isHourInRange` rule on the parsed window. -/
theorem claim_C2 :
    (∀ point start stop : ℚ,
      (isHourInRange (some point) (some start) (some stop) = true ↔
        if start ≤ stop then start ≤ point ∧ point ≤ stop else start ≤ point ∨ point ≤ stop))
    ∧ isInQuietHours defaultPreferences 1410 = true
    ∧ isInQuietHours defaultPreferences 180 = true
    ∧ isInQuietHours defaultPreferences 720 = false
    ∧ (∀ (s e : String) (r : ℚ) (bt wt : TimeConsistency) (h : ℕ),
        getBabyScheduleConflict ⟨[⟨s, e, r⟩], bt, wt, [], []⟩ h
          = min (if isHourInRange (some (h : ℚ)) (smartParseTime s) (smartParseTime e)
                 then r * (4 / 5) else 0) 1)
    ∧ (∀ (s e : String) (i : ℚ) (bt wt : TimeConsistency) (h : ℕ),
        getBabyScheduleConflict ⟨[], bt, wt, [], [⟨s, e, i⟩]⟩ h
          = min (if isHourInRange (some (h : ℚ)) (smartParseTime s) (smartParseTime e)
                 then i * (3 / 5) else 0) 1) := by
  refine ⟨?_, ?_, ?_, ?_, ?_, ?_⟩
  · intro point start stop
    simp only [isHourInRange, jsLe, jsGe]
    by_cases h : start ≤ stop
    · simp [h]
    · simp [h]
  · simp only [isInQuietHours, defaultPreferences, nsp_2200, nsp_0700, jsGt, jsGe, jsLe,
      minutesOfDay]
    norm_num
  · simp only [isInQuietHours, defaultPreferences, nsp_2200, nsp_0700, jsGt, jsGe, jsLe,
      minutesOfDay]
    norm_num
  · simp only [isInQuietHours, defaultPreferences, nsp_2200, nsp_0700, jsGt, jsGe, jsLe,
      minutesOfDay]
    norm_num
  · intro s e r bt wt h
    simp only [getBabyScheduleConflict, List.foldl]
    cases hb : isHourInRange (some (h : ℚ)) (smartParseTime s) (smartParseTime e) <;>
      simp [hb]
  · intro s e i bt wt h
    simp only [getBabyScheduleConflict, List.foldl]
    cases hb : isHourInRange (some (h : ℚ)) (smartParseTime s) (smartParseTime e) <;>
      simp [hb]

/-- Claim C4: the baby-schedule conflict equals the capped sum
`min(1, Σ nap reliability·0.8 + Σ fussy intensity·0.6 + feeding 0.2)` and,
for reliabilities and intensities in [0,1], always lies in [0,1]. -/
theorem claim_C4 (bs : BabyScheduleData) (hour : ℕ)
    (hnap : ∀ nap ∈ bs.napTimes, 0 ≤ nap.reliability ∧ nap.reliability ≤ 1)
    (hfussy : ∀ fp ∈ bs.fussyPeriods, 0 ≤ fp.intensity ∧ fp.intensity ≤ 1) :
    getBabyScheduleConflict bs hour
        = min 1 (napConflictSum bs hour + fussyConflictSum bs hour + feedingTerm bs hour)
      ∧ 0 ≤ getBabyScheduleConflict bs hour ∧ getBabyScheduleConflict bs hour ≤ 1 := by
  have heq := conflict_eq bs hour
  refine ⟨heq, ?_, ?_⟩
  · rw [heq]
    unfold claimConflict
    have h1 : 0 ≤ napConflictSum bs hour := by
      unfold napConflictSum
      apply List.sum_nonneg
      intro x hx
      obtain ⟨nap, hmem, hx⟩ := List.mem_map.mp hx
      have := (hnap nap (List.mem_of_mem_filter hmem)).1
      rw [← hx]
      positivity
    have h2 : 0 ≤ fussyConflictSum bs hour := by
      unfold fussyConflictSum
      apply List.sum_nonneg
      intro x hx
      obtain ⟨fp, hmem, hx⟩ := List.mem_map.mp hx
      have := (hfussy fp (List.mem_of_mem_filter hmem)).1
      rw [← hx]
      positivity
    have h3 : 0 ≤ feedingTerm bs hour := by
      unfold feedingTerm
      split <;> norm_num
    exact le_min (by norm_num) (by linarith)
  · rw [heq]
    exact min_le_left 1 _

/-- Witness for claim C4 at the single-nap schedule and hour 14. -/
theorem claim_C4_witness :
    (∀ nap ∈ bsNap.napTimes, 0 ≤ nap.reliability ∧ nap.reliability ≤ 1)
    ∧ (∀ fp ∈ bsNap.fussyPeriods, 0 ≤ fp.intensity ∧ fp.intensity ≤ 1)
    ∧ (getBabyScheduleConflict bsNap 14
          = min 1 (napConflictSum bsNap 14 + fussyConflictSum bsNap 14 + feedingTerm bsNap 14)
        ∧ 0 ≤ getBabyScheduleConflict bsNap 14 ∧ getBabyScheduleConflict bsNap 14 ≤ 1) := by
  have hnap : ∀ nap ∈ bsNap.napTimes, 0 ≤ nap.reliability ∧ nap.reliability ≤ 1 := by
    intro nap hm
    simp only [bsNap, List.mem_singleton] at hm
    rw [hm]
    norm_num
  have hfussy : ∀ fp ∈ bsNap.fussyPeriods, 0 ≤ fp.intensity ∧ fp.intensity ≤ 1 := by
    intro fp hm
    simp [bsNap] at hm
  exact ⟨hnap, hfussy, claim_C4 bsNap 14 hnap hfussy⟩

/-- Counterexample to claim C5: with a stored response rate of exactly 0 at
hour 10 the code reads the falsy `|| 0.5` default and does NOT delay, while
the claim's rule list (literal stored rate 0 < 0.3, medium urgency) delays. -/
theorem counterexample_C5 :
    (shouldDelayNotification ubC5 emptyBabySchedule 600 0 Urg2.medium).shouldDelay = false
    ∧ (shouldDelayClaimed ubC5 emptyBabySchedule 600 0 Urg2.medium).1 = true := by
  have hh : hourOfTime 600 = 10 := by norm_num [hourOfTime]
  have hconf : getBabyScheduleConflict emptyBabySchedule 10 = 0 := conflict_empty 10
  have hclaimconf : claimConflict emptyBabySchedule 10 = 0 := by
    rw [← conflict_eq]; exact hconf
  constructor
  · simp only [shouldDelayNotification, ubC5, anyQuietConflict, List.any_nil, hh, hconf,
      rateLookup, List.lookup]
    norm_num
  · simp only [shouldDelayClaimed, ubC5, anyQuietConflict, List.any_nil, hh, hclaimconf,
      claimResponseRate, List.lookup]
    norm_num

/-- Claim C5 (amended): `shouldDelayNotification` decides by the claim's
ordered rule list with the response rate read through the falsy-default
lookup (stored 0 or absent ↦ 0.5); and in the nap scenario (13:00–15:00,
reliability 0.9, medium urgency, hour 14) the conflict is 0.72 ≥ 0.72 and
the arbiter delays. -/
theorem claim_C5 :
    (∀ (ub : UserBehaviorPattern) (bs : BabyScheduleData) (p now : ℕ) (u : Urg2),
      ((shouldDelayNotification ub bs p now u).shouldDelay,
       (shouldDelayNotification ub bs p now u).confidence) = shouldDelayAmended ub bs p now u)
    ∧ getBabyScheduleConflict bsNap 14 = 18 / 25
    ∧ (18 / 25 : ℚ) > 7 / 10
    ∧ (shouldDelayNotification ubNoQuiet bsNap 840 0 Urg2.medium).shouldDelay = true := by
  refine ⟨?_, conflict_bsNap, by norm_num, ?_⟩
  · intro ub bs p now u
    simp only [shouldDelayNotification, shouldDelayAmended, ← conflict_eq]
    split_ifs <;> rfl
  · have h14 : hourOfTime 840 = 14 := by norm_num [hourOfTime]
    simp only [shouldDelayNotification, ubNoQuiet, anyQuietConflict, List.any_nil, h14,
      conflict_bsNap]
    norm_num

/-- A scored list with a maximal score attains it on some entry. -/
theorem maxScoreOf_attained :
    ∀ (l : List (ℕ × ℚ)) (m : ℚ), maxScoreOf l = some m → ∃ p, p ∈ l ∧ p.2 = m := by
  intro l
  induction l with
  | nil => intro m hm; simp [maxScoreOf] at hm
  | cons p rest ih =>
    intro m hm
    cases hr : maxScoreOf rest with
    | none =>
      have hrest : rest = [] := by
        cases rest with
        | nil => rfl
        | cons q rs => simp [maxScoreOf] at hr
      subst hrest
      simp only [maxScoreOf, Option.some.injEq] at hm
      exact ⟨p, by simp, hm⟩
    | some mr =>
      simp only [maxScoreOf, hr, Option.some.injEq] at hm
      rcases le_total p.2 mr with hle | hle
      · obtain ⟨q, hq, hq2⟩ := ih mr hr
        refine ⟨q, by simp [hq], ?_⟩
        rw [hq2, ← hm]
        exact (max_eq_right hle).symm
      · refine ⟨p, by simp, ?_⟩
        rw [← hm]
        exact (max_eq_left hle).symm

/-- The fold modelling the stable descending sort's head returns the first
entry attaining the maximal score. -/
theorem pickBest_eq_find :
    ∀ (l : List (ℕ × ℚ)) (m : ℚ), maxScoreOf l = some m →
      pickBest l = l.find? (fun p => decide (p.2 = m)) := by
  intro l
  induction l with
  | nil => intro m hm; simp [maxScoreOf] at hm
  | cons p rest ih =>
    intro m hm
    cases hr : maxScoreOf rest with
    | none =>
      have hrest : rest = [] := by
        cases rest with
        | nil => rfl
        | cons q rs => simp [maxScoreOf] at hr
      subst hrest
      simp only [maxScoreOf, Option.some.injEq] at hm
      subst hm
      simp [pickBest, List.find?]
    | some mr =>
      simp only [maxScoreOf, hr, Option.some.injEq] at hm
      have hfind := ih mr hr
      obtain ⟨q0, hq0, hq02⟩ := maxScoreOf_attained rest mr hr
      cases hq : rest.find? (fun p => decide (p.2 = mr)) with
      | none =>
        exfalso
        have := List.find?_eq_none.mp hq q0 hq0
        simp [hq02] at this
      | some q =>
        have hq2 : q.2 = mr := by
          have := List.find?_some hq
          simpa using this
        have hpb : pickBest rest = some q := by rw [hfind, hq]
        by_cases hlt : p.2 < mr
        · have hmmr : m = mr := by rw [← hm]; exact max_eq_right hlt.le
          subst hmmr
          have hlt' : p.2 < q.2 := by rw [hq2]; exact hlt
          have hL : pickBest (p :: rest) = some q := by
            simp only [pickBest, hpb, if_pos hlt']
          have hR : (p :: rest).find? (fun x => decide (x.2 = m)) = some q := by
            rw [List.find?_cons_of_neg _ (by simp [ne_of_lt hlt]), hfind.symm.trans hpb]
          rw [hL, hR]
        · have hle : mr ≤ p.2 := not_lt.mp hlt
          have hmp : m = p.2 := by rw [← hm]; exact max_eq_left hle
          subst hmp
          have hnlt : ¬(p.2 < q.2) := by rw [hq2]; exact hlt
          have hL : pickBest (p :: rest) = some p := by
            simp only [pickBest, hpb, if_neg hnlt]
          have hR : (p :: rest).find? (fun x => decide (x.2 = p.2)) = some p :=
            List.find?_cons_of_pos _ (by simp)
          rw [hL, hR]

/-- The spec-side earliest-maximum selection agrees with the fold modelling
`Object.entries(...).sort(descending)[0]`. -/
theorem selectEarliestMax_eq (l : List (ℕ × ℚ)) :
    selectEarliestMax l = (pickBest l).map Prod.fst := by
  cases hm : maxScoreOf l with
  | none =>
    have : l = [] := by
      cases l with
      | nil => rfl
      | cons p rest => simp [maxScoreOf] at hm
    subst this
    rfl
  | some m =>
    unfold selectEarliestMax
    rw [hm, pickBest_eq_find l m hm]

/-- Bridge between the two fallback formulations. -/
theorem jsHourFallback_eq_select (l : List (ℕ × ℚ)) (c : ℕ) :
    jsHourFallback (pickBest l) c
      = (match selectEarliestMax l with
         | some h => if h = 0 then c else h
         | none => c) := by
  rw [selectEarliestMax_eq]
  cases pickBest l with
  | none => rfl
  | some p => cases p with | mk h s => rfl

/-- Counterexample to claim C3: with Thursday pattern `[0]` (hour 0 is the
only — hence highest-scoring — candidate) at current hour 12, medium urgency,
the code returns 12, a non-candidate: `sortedHours[0] || currentHour` treats
the winning hour 0 as falsy. -/
theorem counterexample_C3 :
    calculateOptimalHour ubC3 emptyBabySchedule cfWeekday 720 Urg2.medium ContentType.recall = 12
    ∧ todayPatternFor ubC3 720 = [0]
    ∧ (12 : ℕ) ∉ ([0] : List ℕ) := by
  have hpat : todayPatternFor ubC3 720 = [0] := by decide
  have hcur : hourOfTime 720 = 12 := by norm_num [hourOfTime]
  refine ⟨?_, hpat, by decide⟩
  simp [calculateOptimalHour, hpat, hcur, objectKeys, insertKey, pickBest, jsHourFallback]

/-- Claim C3 (amended): `calculateOptimalHour` equals the amended selection:
same candidate set (weekly pattern for the day, else active hours, key-set
deduplicated ascending) and the same scores; winner is the earliest candidate
of maximal score, except that an empty candidate set or a winning hour 0
yields the current hour, and the high-urgency shortcut returns the first
pattern-order candidate within the next three hours. -/
theorem claim_C3 (ub : UserBehaviorPattern) (bs : BabyScheduleData) (cf : ContextualFactors)
    (now : ℕ) (u : Urg2) (ct : ContentType) :
    calculateOptimalHour ub bs cf now u ct = calculateOptimalHourAmended ub bs cf now u ct := by
  simp only [calculateOptimalHour, calculateOptimalHourAmended]
  by_cases hu : u = Urg2.high ∧ hourOfTime now ∈ todayPatternFor ub now
  · cases hfilt : (todayPatternFor ub now).filter
        (fun h => decide (hourOfTime now ≤ h) && decide (h ≤ hourOfTime now + 3)) with
    | nil =>
      simp only [hu, and_true, if_pos, hfilt, ne_eq, not_true_eq_false, and_false, if_neg,
        not_false_eq_true]
      rw [jsHourFallback_eq_select]
    | cons f fs =>
      simp [hu, hu.1, hu.2, hfilt]
  · rw [if_neg hu, if_neg (by intro h; exact hu ⟨h.1, h.2.1⟩)]
    exact jsHourFallback_eq_select _ _

/-- A failed bounded walk rejects every step it visited. -/
theorem findLoop_none_spec (ub : UserBehaviorPattern) (orig : ℕ) :
    ∀ (fuel i : ℕ), findLoop ub orig i fuel = none →
      ∀ j, i ≤ j → j < i + fuel → acceptCandidate ub (orig + j * 60) = false := by
  intro fuel
  induction fuel with
  | zero => intro i _ j hij hj; omega
  | succ fuel ih =>
    intro i hnone j hij hj
    cases hacc : acceptCandidate ub (orig + i * 60) with
    | true => simp [findLoop, hacc] at hnone
    | false =>
      rcases Nat.eq_or_lt_of_le hij with rfl | hij'
      · exact hacc
      · have hrec : findLoop ub orig (i + 1) fuel = none := by
          simpa [findLoop, hacc] using hnone
        exact ih (i + 1) hrec j hij' (by omega)

/-- A successful bounded walk returns the first accepted hourly step. -/
theorem findLoop_some_spec (ub : UserBehaviorPattern) (orig : ℕ) :
    ∀ (fuel i t : ℕ), findLoop ub orig i fuel = some t →
      ∃ k, i ≤ k ∧ k < i + fuel ∧ t = orig + k * 60 ∧
        acceptCandidate ub (orig + k * 60) = true ∧
        ∀ j, i ≤ j → j < k → acceptCandidate ub (orig + j * 60) = false := by
  intro fuel
  induction fuel with
  | zero => intro i t h; simp [findLoop] at h
  | succ fuel ih =>
    intro i t h
    cases hacc : acceptCandidate ub (orig + i * 60) with
    | true =>
      have ht : t = orig + i * 60 := by
        have := h
        simp only [findLoop, hacc, if_pos, Option.some.injEq] at this
        exact this.symm
      refine ⟨i, le_refl i, by omega, ht, hacc, ?_⟩
      intro j h1 h2
      omega
    | false =>
      have hrec : findLoop ub orig (i + 1) fuel = some t := by
        simpa [findLoop, hacc] using h
      obtain ⟨k, hk1, hk2, hk3, hk4, hk5⟩ := ih (i + 1) t hrec
      refine ⟨k, by omega, by omega, hk3, hk4, ?_⟩
      intro j hj1 hj2
      rcases Nat.eq_or_lt_of_le hj1 with rfl | hj'
      · exact hacc
      · exact hk5 j hj' hj2

/-- Claim C6: `findNextOptimalTime` terminates with either the first hourly
step within the cap (6 hours for high, 24 for medium) that is outside every
quiet period and has a looked-up response rate above 0.5, or the fallback
next active hour rolled to the following day when earlier than now plus one
hour; and it never returns a time before now (for an input not before now
and a nonempty fallback pattern). -/
theorem claim_C6 (ub : UserBehaviorPattern) (originalTime now : ℕ) (u : Urg2)
    (hpat : todayPatternFor ub originalTime ≠ [])
    (hnow : now ≤ originalTime) :
    ∃ t, findNextOptimalTime ub originalTime now u = some t ∧ now ≤ t ∧
      ((t ≤ originalTime + capOf u * 60 ∧
        ∃ k, 1 ≤ k ∧ k ≤ capOf u ∧ t = originalTime + k * 60 ∧
          acceptCandidate ub (originalTime + k * 60) = true ∧
          ∀ j, 1 ≤ j → j < k → acceptCandidate ub (originalTime + j * 60) = false)
       ∨ ((∀ j, 1 ≤ j → j ≤ capOf u → acceptCandidate ub (originalTime + j * 60) = false) ∧
          some t = fallbackTimeOf ub originalTime now)) := by
  cases hres : findLoop ub originalTime 1 (capOf u) with
  | some t0 =>
    obtain ⟨k, hk1, hk2, hk3, hk4, hk5⟩ :=
      findLoop_some_spec ub originalTime (capOf u) 1 t0 hres
    refine ⟨t0, by simp [findNextOptimalTime, hres], by omega,
      Or.inl ⟨by omega, k, hk1, by omega, hk3, hk4, hk5⟩⟩
  | none =>
    have hfall : findNextOptimalTime ub originalTime now u = fallbackTimeOf ub originalTime now := by
      simp [findNextOptimalTime, hres]
    have hnext : ∃ h, nextActiveHourOf ub originalTime = some h := by
      unfold nextActiveHourOf
      cases hf : (todayPatternFor ub originalTime).find?
          (fun h => decide (hourOfTime originalTime < h)) with
      | some h => exact ⟨h, by simp [hf, Option.orElse]⟩
      | none =>
        cases hp : todayPatternFor ub originalTime with
        | nil => exact absurd hp hpat
        | cons a l => exact ⟨a, by simp [hf, hp, Option.orElse]⟩
    obtain ⟨h, hh⟩ := hnext
    have hmod_lt : originalTime % 1440 < 1440 := Nat.mod_lt _ (by norm_num)
    have hmod_le : originalTime % 1440 ≤ originalTime := Nat.mod_le _ _
    have hfb : fallbackTimeOf ub originalTime now
        = some (if originalTime - originalTime % 1440 + h * 60 < now + 60
                then originalTime - originalTime % 1440 + h * 60 + 1440
                else originalTime - originalTime % 1440 + h * 60) := by
      simp [fallbackTimeOf, hh]
    refine ⟨if originalTime - originalTime % 1440 + h * 60 < now + 60
            then originalTime - originalTime % 1440 + h * 60 + 1440
            else originalTime - originalTime % 1440 + h * 60,
      by rw [hfall, hfb], ?_, Or.inr ⟨?_, by rw [hfb]⟩⟩
    · split_ifs with hc <;> omega
    · intro j hj1 hj2
      exact findLoop_none_spec ub originalTime (capOf u) 1 hres j hj1 (by omega)

/-- Witness for claim C6 at a concrete profile and time (8:00, high urgency). -/
theorem claim_C6_witness :
    todayPatternFor ubNoQuiet 480 ≠ [] ∧ (480 : ℕ) ≤ 480 ∧
    (∃ t, findNextOptimalTime ubNoQuiet 480 480 Urg2.high = some t ∧ 480 ≤ t ∧
      ((t ≤ 480 + capOf Urg2.high * 60 ∧
        ∃ k, 1 ≤ k ∧ k ≤ capOf Urg2.high ∧ t = 480 + k * 60 ∧
          acceptCandidate ubNoQuiet (480 + k * 60) = true ∧
          ∀ j, 1 ≤ j → j < k → acceptCandidate ubNoQuiet (480 + j * 60) = false)
       ∨ ((∀ j, 1 ≤ j → j ≤ capOf Urg2.high →
            acceptCandidate ubNoQuiet (480 + j * 60) = false) ∧
          some t = fallbackTimeOf ubNoQuiet 480 480))) :=
  ⟨by decide, le_refl 480, claim_C6 ubNoQuiet 480 480 Urg2.high (by decide) (le_refl 480)⟩

/-- Lookup after `Map.set` finds the stored record. -/
theorem lookupPending_insert (st : NState) (id : String) (n : ScheduledNotification) :
    lookupPending (insertPending st id n) id = some n := by
  simp [lookupPending, insertPending, List.lookup]

/-- Lookup after `Map.delete` misses. -/
theorem lookupPending_erase (st : NState) (id : String) :
    lookupPending (erasePending st id) id = none := by
  induction st with
  | nil => rfl
  | cons p st ih =>
    obtain ⟨k, v⟩ := p
    by_cases hp : k = id
    · simpa [erasePending, List.filter_cons, hp] using ih
    · have hbe : (id == k) = false := beq_eq_false_iff_ne.mpr (Ne.symm hp)
      simpa [erasePending, List.filter_cons, hp, lookupPending, List.lookup, hbe] using ih

/-- Membership after `Map.delete` is false for the deleted key. -/
theorem containsPending_erase (st : NState) (id : String) :
    containsPending (erasePending st id) id = false := by
  induction st with
  | nil => rfl
  | cons p st ih =>
    obtain ⟨k, v⟩ := p
    by_cases hp : k = id
    · simpa [erasePending, List.filter_cons, hp] using ih
    · have ih' := ih
      simp only [erasePending, containsPending] at ih'
      simp [erasePending, List.filter_cons, hp, containsPending, List.any_cons, ih']

/-- Membership after `Map.set` holds for the stored key. -/
theorem containsPending_insert (st : NState) (id : String) (n : ScheduledNotification) :
    containsPending (insertPending st id n) id = true := by
  simp [containsPending, insertPending, List.any_cons]

/-- Claim C7 (amended): the deferred fire-time callback always removes its
notification from the pending set (so a later `cancelNotification` returns
false), but an IMMEDIATELY dispatched notification — e.g. any critical
scheduling — stays in the pending set after being sent, and
`cancelNotification` on it returns true. -/
theorem claim_C7 :
    (∀ (ub : UserBehaviorPattern) (bs : BabyScheduleData) (notif : ScheduledNotification)
        (st : NState) (now : ℕ),
      lookupPending (fireTimerCallback ub bs notif st now).1 notif.id = none
      ∧ (cancelNotification (fireTimerCallback ub bs notif st now).1 notif.id).1 = false)
    ∧ (∀ (prefs : NotificationPreferences) (ub : UserBehaviorPattern) (bs : BabyScheduleData)
        (cf : ContextualFactors) (babyName recallId productName hazardDescription : String)
        (st : NState) (now rand : ℕ),
      (scheduleRecallNotification prefs ub bs cf babyName recallId Urgency.critical
          productName hazardDescription st now rand).1 = true
      ∧ (∃ n, (scheduleRecallNotification prefs ub bs cf babyName recallId Urgency.critical
          productName hazardDescription st now rand).2.2 = [Effect.sent n])
      ∧ containsPending (scheduleRecallNotification prefs ub bs cf babyName recallId
          Urgency.critical productName hazardDescription st now rand).2.1
          ("recall-" ++ recallId ++ "-" ++ toString now) = true
      ∧ (cancelNotification (scheduleRecallNotification prefs ub bs cf babyName recallId
          Urgency.critical productName hazardDescription st now rand).2.1
          ("recall-" ++ recallId ++ "-" ++ toString now)).1 = true) := by
  constructor
  · intro ub bs notif st now
    refine ⟨lookupPending_erase st notif.id, ?_⟩
    simpa [cancelNotification, fireTimerCallback] using containsPending_erase st notif.id
  · intro prefs ub bs cf babyName recallId productName hazardDescription st now rand
    have hred : scheduleRecallNotification prefs ub bs cf babyName recallId Urgency.critical
        productName hazardDescription st now rand
        = (true,
           insertPending st ("recall-" ++ recallId ++ "-" ++ toString now)
             { id := "recall-" ++ recallId ++ "-" ++ toString now
               recallId := recallId
               type := Urgency.critical
               title := generatePersonalizedMessage babyName Urgency.critical productName rand
               body := hazardDescription
               scheduledFor := some now
               personalizedMessage :=
                 some (generatePersonalizedMessage babyName Urgency.critical productName rand)
               actionUrl := some ("/recalls/" ++ recallId)
               priority := 10
               timingReasoning := some "Critical safety alerts are delivered immediately"
               confidence := some 1 },
           [Effect.sent
             { id := "recall-" ++ recallId ++ "-" ++ toString now
               recallId := recallId
               type := Urgency.critical
               title := generatePersonalizedMessage babyName Urgency.critical productName rand
               body := hazardDescription
               scheduledFor := some now
               personalizedMessage :=
                 some (generatePersonalizedMessage babyName Urgency.critical productName rand)
               actionUrl := some ("/recalls/" ++ recallId)
               priority := 10
               timingReasoning := some "Critical safety alerts are delivered immediately"
               confidence := some 1 }]) := by
      simp [scheduleRecallNotification, calculateOptimalDeliveryTime, jsLeTime]
    rw [hred]
    refine ⟨rfl, ⟨_, rfl⟩, containsPending_insert _ _ _, ?_⟩
    simpa [cancelNotification] using containsPending_insert st
      ("recall-" ++ recallId ++ "-" ++ toString now) _

/-- Counterexample to claim C7: a concrete critical scheduling dispatches the
notification immediately (a sent effect is produced) yet the record stays in
the pending set and `cancelNotification` afterwards returns TRUE, not false. -/
theorem counterexample_C7 :
    (∃ n, (scheduleRecallNotification defaultPreferences defaultUserBehavior defaultBabySchedule
        cfWeekday ("Emma") ("r1") Urgency.critical ("Crib") ("hz") [] 1000 0).2.2
      = [Effect.sent n])
    ∧ containsPending (scheduleRecallNotification defaultPreferences defaultUserBehavior
        defaultBabySchedule cfWeekday ("Emma") ("r1") Urgency.critical ("Crib") ("hz")
        [] 1000 0).2.1 ("recall-r1-1000") = true
    ∧ (cancelNotification (scheduleRecallNotification defaultPreferences defaultUserBehavior
        defaultBabySchedule cfWeekday ("Emma") ("r1") Urgency.critical ("Crib") ("hz")
        [] 1000 0).2.1 ("recall-r1-1000")).1 = true := by
  refine ⟨⟨_, rfl⟩, by decide, by decide⟩

/-- Claim C1 (amended): critical-urgency scheduling is never suppressed under
any preferences and yields `scheduledFor = now` with confidence 1.0, and is
dispatched immediately; `sendCriticalRecallAlert` also sends at `now`, but
attaches NO confidence value (the field is left unset rather than 1.0). -/
theorem claim_C1 (prefs : NotificationPreferences) (ub : UserBehaviorPattern)
    (bs : BabyScheduleData) (cf : ContextualFactors)
    (babyName recallId productName hazardDescription : String) (st : NState) (now rand : ℕ) :
    (scheduleRecallNotification prefs ub bs cf babyName recallId Urgency.critical
        productName hazardDescription st now rand).1 = true
    ∧ (lookupPending (scheduleRecallNotification prefs ub bs cf babyName recallId
          Urgency.critical productName hazardDescription st now rand).2.1
          ("recall-" ++ recallId ++ "-" ++ toString now)).map
        (fun n => (n.scheduledFor, n.confidence)) = some (some now, some 1)
    ∧ (∃ n, (scheduleRecallNotification prefs ub bs cf babyName recallId Urgency.critical
          productName hazardDescription st now rand).2.2 = [Effect.sent n]
        ∧ n.scheduledFor = some now ∧ n.confidence = some 1)
    ∧ (sendCriticalRecallAlert babyName recallId productName hazardDescription now rand).1.scheduledFor
        = some now
    ∧ (sendCriticalRecallAlert babyName recallId productName hazardDescription now rand).1.confidence
        = none := by
  have hred : scheduleRecallNotification prefs ub bs cf babyName recallId Urgency.critical
      productName hazardDescription st now rand
      = (true,
         insertPending st ("recall-" ++ recallId ++ "-" ++ toString now)
           { id := "recall-" ++ recallId ++ "-" ++ toString now
             recallId := recallId
             type := Urgency.critical
             title := generatePersonalizedMessage babyName Urgency.critical productName rand
             body := hazardDescription
             scheduledFor := some now
             personalizedMessage :=
               some (generatePersonalizedMessage babyName Urgency.critical productName rand)
             actionUrl := some ("/recalls/" ++ recallId)
             priority := 10
             timingReasoning := some "Critical safety alerts are delivered immediately"
             confidence := some 1 },
         [Effect.sent
           { id := "recall-" ++ recallId ++ "-" ++ toString now
             recallId := recallId
             type := Urgency.critical
             title := generatePersonalizedMessage babyName Urgency.critical productName rand
             body := hazardDescription
             scheduledFor := some now
             personalizedMessage :=
               some (generatePersonalizedMessage babyName Urgency.critical productName rand)
             actionUrl := some ("/recalls/" ++ recallId)
             priority := 10
             timingReasoning := some "Critical safety alerts are delivered immediately"
             confidence := some 1 }]) := by
    simp [scheduleRecallNotification, calculateOptimalDeliveryTime, jsLeTime]
  rw [hred]
  refine ⟨rfl, ?_, ⟨_, rfl, rfl, rfl⟩, rfl, rfl⟩
  rw [lookupPending_insert]
  rfl

/-- Counterexample to claim C1: `sendCriticalRecallAlert` leaves the
confidence field unset, so it does not equal 1.0. -/
theorem counterexample_C1 :
    (sendCriticalRecallAlert ("Emma") ("r1") ("Crib") ("hazard") 1000 0).1.confidence = none
    ∧ (none : Option ℚ) ≠ some 1 :=
  ⟨rfl, by simp⟩

/-- Claim C10: an interaction whose id is not pending is a silent no-op on
the behaviour pattern and the pending set; in particular, after the deferred
fire-time callback has deleted a held notification, recording a response to
it changes nothing. -/
theorem claim_C10 :
    (∀ (ub : UserBehaviorPattern) (st : NState) (id : String) (now : ℕ)
        (action : ResponseAction),
      lookupPending st id = none →
      recordNotificationInteraction ub st id now action = (ub, st))
    ∧ (∀ (ub ub2 : UserBehaviorPattern) (bs : BabyScheduleData)
        (notif : ScheduledNotification) (st : NState) (fnow now : ℕ) (action : ResponseAction),
      recordNotificationInteraction ub2 (fireTimerCallback ub bs notif st fnow).1 notif.id
          now action
        = (ub2, (fireTimerCallback ub bs notif st fnow).1)) := by
  constructor
  · intro ub st id now action h
    simp [recordNotificationInteraction, h]
  · intro ub ub2 bs notif st fnow now action
    have h : lookupPending (fireTimerCallback ub bs notif st fnow).1 notif.id = none :=
      lookupPending_erase st notif.id
    simp [recordNotificationInteraction, h]

/-- Witness for claim C10 at a concrete pending set and missing id. -/
theorem claim_C10_witness :
    lookupPending st10 ("missing") = none
    ∧ recordNotificationInteraction defaultUserBehavior st10 ("missing") 5
        ResponseAction.opened = (defaultUserBehavior, st10) :=
  ⟨by decide, claim_C10.1 defaultUserBehavior st10 ("missing") 5 ResponseAction.opened (by decide)⟩

/-- Claim C9 evaluated at its failing input: recording usage at hour 12 on
active hours [7, 8] leaves `appUsageHours = [12, 7, 8]` — the JS default sort
is lexicographic on the decimal strings, NOT ascending numeric order — while
membership, the weekly-pattern entry and `lastActiveTime` are as claimed. -/
theorem claim_C9_eval :
    (recordAppUsage ubC9 720).appUsageHours = [12, 7, 8]
    ∧ ¬ List.Sorted (· ≤ ·) ((recordAppUsage ubC9 720).appUsageHours)
    ∧ 12 ∈ (recordAppUsage ubC9 720).appUsageHours
    ∧ (recordAppUsage ubC9 720).lastActiveTime = 720
    ∧ List.lookup ("thursday") (recordAppUsage ubC9 720).weeklyPattern = some [12] := by
  refine ⟨by decide, ?_, by decide, by decide, by decide⟩
  decide

/-- A digit character parses back to its digit. -/
theorem digitVal_digitChar (k : ℕ) (hk : k < 10) : digitVal (digitChar k) = some k := by
  interval_cases k <;> decide

/-- Digit characters are not the colon separator. -/
theorem digitChar_ne_colon (k : ℕ) (hk : k < 10) : digitChar k ≠ ':' := by
  interval_cases k <;> decide

/-- A two-digit rendering contains no colon. -/
theorem pad2_ne_colon (n : ℕ) (hn : n < 100) : ∀ c ∈ pad2 n, c ≠ ':' := by
  intro c hc
  unfold pad2 at hc
  by_cases h : n < 10
  · simp only [h, if_pos, List.mem_cons, List.not_mem_nil, or_false] at hc
    rcases hc with rfl | rfl
    · decide
    · exact digitChar_ne_colon n h
  · simp only [h, if_neg, not_false_eq_true, List.mem_cons, List.not_mem_nil, or_false] at hc
    rcases hc with rfl | rfl
    · exact digitChar_ne_colon _ (by omega)
    · exact digitChar_ne_colon _ (by omega)

/-- `Number` on a two-digit rendering recovers the number. -/
theorem jsNumberL_pad2 (n : ℕ) (hn : n < 100) : jsNumberL (pad2 n) = some n := by
  have hd0 : digitVal '0' = some 0 := by decide
  unfold pad2
  by_cases h : n < 10
  · simp [h, jsNumberL, List.foldl, hd0, digitVal_digitChar n h]
  · have h1 : n / 10 < 10 := by omega
    have h2 : n % 10 < 10 := by omega
    simp [h, jsNumberL, List.foldl, digitVal_digitChar _ h1, digitVal_digitChar _ h2]
    omega

/-- Splitting a colon-free character list yields a single group. -/
theorem splitCols_no_colon : ∀ (l : List Char), (∀ c ∈ l, c ≠ ':') → splitCols l = [l] := by
  intro l
  induction l with
  | nil => intro _; rfl
  | cons c cs ih =>
    intro h
    have hc : c ≠ ':' := h c (by simp)
    have hrest := ih (fun x hx => h x (by simp [hx]))
    simp [splitCols, hc, hrest]

/-- Splitting at the first colon of a colon-free prefix. -/
theorem splitCols_colon_append :
    ∀ (l1 l2 : List Char), (∀ c ∈ l1, c ≠ ':') →
      splitCols (l1 ++ ':' :: l2) = l1 :: splitCols l2 := by
  intro l1
  induction l1 with
  | nil => intro l2 _; simp [splitCols]
  | cons c cs ih =>
    intro l2 h
    have hc : c ≠ ':' := h c (by simp)
    have hrest := ih l2 (fun x hx => h x (by simp [hx]))
    simp [splitCols, hc, hrest]

/-- The character list behind `hhmm`. -/
theorem hhmm_data (h m : ℕ) : (hhmm h m).data = pad2 h ++ ':' :: pad2 m := rfl

/-- Claim C8 (amended): on well-formed `"HH:MM"` strings
`NotificationService.parseTime` returns `h*60 + m` minutes while
`SmartNotificationTiming.parseTime` returns `h + m/60` fractional HOURS;
malformed or out-of-range strings are NOT rejected: `"25:99"` parses to 1599
and a malformed quiet-hours string is accepted verbatim by
`updatePreferences`, replacing the previous valid configuration (a fully
malformed string merely evaluates to NaN). -/
theorem claim_C8 (h m : ℕ) (hh : h ≤ 23) (hm : m ≤ 59) :
    nsParseTime (hhmm h m) = some ((h : ℚ) * 60 + (m : ℚ))
    ∧ smartParseTime (hhmm h m) = some ((h : ℚ) + (m : ℚ) / 60)
    ∧ nsParseTime ("25:99") = some 1599
    ∧ (updatePreferences defaultPreferences defaultUserBehavior
        ⟨none, some ⟨true, HighSchedule.immediate, ⟨true, "xx:yy", "07:00"⟩⟩,
         none, none⟩).1.high.quietHours.start = "xx:yy"
    ∧ smartParseTime ("xx:yy") = none := by
  have hsplit : splitCols (hhmm h m).data = [pad2 h, pad2 m] := by
    rw [hhmm_data, splitCols_colon_append (pad2 h) _ (pad2_ne_colon h (by omega)),
      splitCols_no_colon (pad2 m) (pad2_ne_colon m (by omega))]
  have hmap0 : ((splitCols (hhmm h m).data).map jsNumberL).get? 0 = some (some h) := by
    rw [hsplit]
    simp [jsNumberL_pad2 h (by omega)]
  have hmap1 : ((splitCols (hhmm h m).data).map jsNumberL).get? 1 = some (some m) := by
    rw [hsplit]
    simp [jsNumberL_pad2 m (by omega)]
  refine ⟨nsParseTime_eval _ h m hmap0 hmap1, smartParseTime_eval _ h m hmap0 hmap1,
    ?_, rfl, by decide⟩
  rw [nsParseTime_eval ("25:99") 25 99 (by decide) (by decide)]
  norm_num

/-- Witness for claim C8 at 13:30. -/
theorem claim_C8_witness :
    (13 : ℕ) ≤ 23 ∧ (30 : ℕ) ≤ 59
    ∧ (nsParseTime (hhmm 13 30) = some ((13 : ℚ) * 60 + (30 : ℚ))
       ∧ smartParseTime (hhmm 13 30) = some ((13 : ℚ) + (30 : ℚ) / 60)
       ∧ nsParseTime ("25:99") = some 1599
       ∧ (updatePreferences defaultPreferences defaultUserBehavior
            ⟨none, some ⟨true, HighSchedule.immediate, ⟨true, "xx:yy", "07:00"⟩⟩,
             none, none⟩).1.high.quietHours.start = "xx:yy"
       ∧ smartParseTime ("xx:yy") = none) :=
  ⟨by norm_num, by norm_num, claim_C8 13 30 (by norm_num) (by norm_num)⟩

/-- Counterexample to claim C8: `SmartNotificationTiming.parseTime` returns
13.5 (fractional hours) for "13:30", not the claimed 810 minutes; and the
out-of-range "25:99" yields the value 1599 instead of failing with a
FormatError. -/
theorem counterexample_C8 :
    smartParseTime ("13:30") = some (27 / 2)
    ∧ (27 / 2 : ℚ) ≠ (13 : ℚ) * 60 + 30
    ∧ nsParseTime ("25:99") = some 1599 := by
  refine ⟨?_, by norm_num, ?_⟩
  · rw [smartParseTime_eval ("13:30") 13 30 (by decide) (by decide)]
    norm_num
  · rw [nsParseTime_eval ("25:99") 25 99 (by decide) (by decide)]
    norm_num

end BeSaavy
